import Mathlib

set_option linter.unusedVariables false

/-!
Shallow embedding of the gts-graph-rag retrieval pipeline (the repository's
backend/agent package) and proofs about its orchestration, fusion, grading
and URL-extraction logic.

Conventions of the embedding:
- Python dict result items are modelled by the structure Item below; float
  relevance scores are modelled by rationals (the claims are order-theoretic
  and do not depend on float rounding).
- External services (LLM, rerank API, vector / graph / ephemeral stores) are
  modelled by oracle parameters: an Except or Option value standing for the
  response, with the error case standing for a raised exception.
- Python`s hash of the first 200 characters of content is modelled by the
  200-character prefix itself (hash collisions are identified; every claim
  proved here is insensitive to that identification).
-/

/-- A retrieved item: models the result dicts produced by the retrieval
nodes in backend/agent/nodes.py and backend/agent/temp_nodes.py
(keys content, score, source, and the retrieval_source / rerank_score keys
stamped later by the reranker node and the rerank client). -/
structure Item where
  content : String
  score : ℚ
  source : String
  metadata : List (String × String) := []
  sourceType : Option String := none
  retrievalSource : Option String := none
  rerankScore : Option ℚ := none
  deriving Repr, DecidableEq, Inhabited

/-- Python list.sort(key=score, reverse=True) is a stable descending sort;
insertDesc inserts an element into a descending-sorted list, placing it
after earlier elements with an equal score (stability). -/
def insertDesc (x : Item) : List Item → List Item
  | [] => [x]
  | y :: ys => if y.score ≤ x.score then x :: y :: ys else y :: insertDesc x ys

/-- Stable insertion sort by descending score, modelling
list.sort(key=lambda x: x.get(\x22score\x22, 0), reverse=True). -/
def sortByScoreDesc : List Item → List Item
  | [] => []
  | x :: xs => insertDesc x (sortByScoreDesc xs)

/-- The list is ordered by descending relevance score. -/
def SortedDesc (l : List Item) : Prop :=
  l.Chain' (fun a b => b.score ≤ a.score)

instance : DecidablePred SortedDesc := fun l => by
  unfold SortedDesc
  exact inferInstance

/-- Dedup key: hash(ctx.get(\x22content\x22, \x22\x22)[:200]) in the reranker
node, modelled by the 200-character content prefix itself. -/
def dedupKey (i : Item) : String := i.content.take 200

/-- Worker for the seen-set deduplication loop of the reranker node. -/
def dedupGo (seen : List String) : List Item → List Item
  | [] => []
  | x :: xs =>
    if dedupKey x ∈ seen then dedupGo seen xs
    else x :: dedupGo (dedupKey x :: seen) xs

/-- Deduplication by content-prefix hash, keeping the first-seen item per
key (reranker node, nodes.py lines 452-459). -/
def dedupByContentPrefix (l : List Item) : List Item := dedupGo [] l

/-- One entry of a DashScope TextReRank API response: an index into the
submitted document list and a relevance score. -/
structure RerankEntry where
  index : Nat
  relevance_score : ℚ
  deriving Repr, DecidableEq

/-- Outcome of invoking the rerank capability from a node:
raised models an exception escaping DashScopeRerank.rerank (caught by the
calling node), api none models an HTTP non-200 status or an exception
caught inside the client, api (some results) models a 200 response. -/
inductive RerankOutcome where
  | raised
  | api (result : Option (List RerankEntry))
  deriving Repr, DecidableEq

/-- DashScopeRerank.rerank from backend/models/rerank.py, given the API
response as an oracle. On empty input returns []; on API failure returns
the first top_n documents sorted by existing score; on success keeps
response entries with relevance_score above the threshold and a valid
index, overwrites each kept document score, sorts descending and
truncates to top_n. -/
def dashScopeRerankClient (apiResult : Option (List RerankEntry))
    (documents : List Item) (top_n : ℕ) (min_score : ℚ) : List Item :=
  if documents = [] then []
  else
    match apiResult with
    | none => sortByScoreDesc (documents.take top_n)
    | some results =>
      let reranked := (results.filter
          (fun r => decide (min_score ≤ r.relevance_score) &&
            decide (r.index < documents.length))).map
        (fun r =>
          let doc := documents.getD r.index default
          { doc with score := r.relevance_score,
                     rerankScore := some r.relevance_score })
      (sortByScoreDesc reranked).take top_n

/-- Stamp an item with its retrieval source, modelling
ctx_copy[\x22retrieval_source\x22] = ... in the reranker node. -/
def stampSource (src : String) (i : Item) : Item :=
  { i with retrievalSource := some src }

/-- Output of the reranker (fusion) node: the merged context list and
whether the rerank capability was invoked. -/
structure FusionOutput where
  context : List Item
  rerankInvoked : Bool
  deriving Repr, DecidableEq

/-- The combined per-origin input of the reranker node: vector, then graph,
then temp results, each stamped with its origin. -/
def stampedConcat (vector_context graph_context temp_context : List Item) :
    List Item :=
  vector_context.map (stampSource "vector") ++
  graph_context.map (stampSource "graph") ++
  temp_context.map (stampSource "temp")

/-- The reranker node of backend/agent/nodes.py (fusion): stamps each item
with its origin, concatenates vector, graph and temp results in that
order; returns [] when the combined list is empty and the single item
when it has length one, skipping dedup and rerank in both cases;
otherwise deduplicates by content-prefix hash and, when reranking is
enabled, invokes the rerank capability (falling back to a descending
score sort truncated to top_n when the call raises); when reranking is
disabled, sorts descending by score and truncates to top_n. -/
def rerankerNode (rerankEnabled : Bool) (outcome : RerankOutcome)
    (vector_search_results : ℕ) (min_relevance_score : ℚ)
    (vector_context graph_context temp_context : List Item) : FusionOutput :=
  let all_context := stampedConcat vector_context graph_context temp_context
  if all_context = [] then
    { context := [], rerankInvoked := false }
  else if all_context.length ≤ 1 then
    { context := all_context, rerankInvoked := false }
  else
    let unique_context := dedupByContentPrefix all_context
    if rerankEnabled then
      match outcome with
      | .raised =>
        { context := (sortByScoreDesc unique_context).take vector_search_results,
          rerankInvoked := true }
      | .api r =>
        { context := dashScopeRerankClient r unique_context
            vector_search_results min_relevance_score,
          rerankInvoked := true }
    else
      { context := (sortByScoreDesc unique_context).take vector_search_results,
        rerankInvoked := false }

/-- Configured defaults from backend/config.py: vector_search_results. -/
def defaultVectorSearchResults : ℕ := 5

/-- Configured defaults from backend/config.py: min_relevance_score. -/
def defaultMinRelevanceScore : ℚ := 3 / 10

/-- One row of a ChromaDB vector query response for one organization:
a document text and its distance (score is computed as 1 - distance). -/
structure RawVectorRow where
  document : String
  distance : ℚ
  rowMetadata : List (String × String) := []
  deriving Repr, DecidableEq

/-- The per-organization result accumulation loop of vector_retriever
(nodes.py lines 134-164): a failing organization query is caught and
skipped, a succeeding one appends its rows as vector items with
score = 1 - distance. -/
def vectorRawResults (orgOutcomes : List (Except Unit (List RawVectorRow))) :
    List Item :=
  orgOutcomes.foldl
    (fun acc oc =>
      match oc with
      | .error _ => acc
      | .ok rows => acc ++ rows.map (fun r =>
          { content := r.document, metadata := r.rowMetadata,
            score := 1 - r.distance, source := "vector" }))
    []

/-- Output of the vector retriever node: the vector_context list it writes
to the state and whether it invoked the rerank capability. -/
structure VectorOutput where
  vector_context : List Item
  rerankInvoked : Bool
  deriving Repr, DecidableEq

/-- vector_retriever from backend/agent/nodes.py (lines 123-198): merges
per-organization results, sorts them by initial score descending; when
reranking is enabled and at least one raw result was obtained, invokes
the rerank capability with top_n = vector_search_results (on a raised
exception it falls back to the first vector_search_results sorted
results); otherwise returns the first vector_search_results sorted
results. -/
def vectorRetrieverNode (orgOutcomes : List (Except Unit (List RawVectorRow)))
    (vector_search_results : ℕ) (min_relevance_score : ℚ)
    (rerankEnabled : Bool) (outcome : RerankOutcome) : VectorOutput :=
  let all_results := sortByScoreDesc (vectorRawResults orgOutcomes)
  if all_results ≠ [] ∧ rerankEnabled = true then
    match outcome with
    | .raised =>
      { vector_context := all_results.take vector_search_results,
        rerankInvoked := true }
    | .api r =>
      { vector_context := dashScopeRerankClient r all_results
          vector_search_results min_relevance_score,
        rerankInvoked := true }
  else
    { vector_context := all_results.take vector_search_results,
      rerankInvoked := false }

/-! Sorting lemmas. -/

theorem insertDesc_length (x : Item) (l : List Item) :
    (insertDesc x l).length = l.length + 1 := by
  induction l with
  | nil => rfl
  | cons y ys ih =>
    unfold insertDesc
    by_cases h : y.score ≤ x.score <;> simp [h, ih]

theorem sortByScoreDesc_length (l : List Item) :
    (sortByScoreDesc l).length = l.length := by
  induction l with
  | nil => rfl
  | cons x xs ih => simp [sortByScoreDesc, insertDesc_length, ih]

theorem insertDesc_sorted (x : Item) (l : List Item) (h : SortedDesc l) :
    SortedDesc (insertDesc x l) := by
  induction l with
  | nil => simp [insertDesc, SortedDesc]
  | cons y ys ih =>
    unfold SortedDesc at h ⊢
    unfold insertDesc
    by_cases hxy : y.score ≤ x.score
    · simp only [if_pos hxy, List.chain'_cons]
      exact ⟨hxy, h⟩
    · simp only [if_neg hxy]
      have hx : x.score ≤ y.score := le_of_lt (lt_of_not_le hxy)
      have hys : SortedDesc ys := (List.chain'_cons'.mp h).2
      have hins : SortedDesc (insertDesc x ys) := ih hys
      refine List.chain'_cons'.mpr ⟨?_, hins⟩
      intro z hz
      cases ys with
      | nil =>
        simp [insertDesc] at hz
        subst hz; exact hx
      | cons w ws =>
        unfold insertDesc at hz
        by_cases hwx : w.score ≤ x.score
        · simp [if_pos hwx] at hz
          subst hz; exact hx
        · simp [if_neg hwx] at hz
          subst hz
          exact (List.chain'_cons.mp h).1

theorem sortByScoreDesc_sorted (l : List Item) :
    SortedDesc (sortByScoreDesc l) := by
  induction l with
  | nil => simp [sortByScoreDesc, SortedDesc]
  | cons x xs ih => exact insertDesc_sorted x _ ih

theorem sortedDesc_take (l : List Item) (n : ℕ) (h : SortedDesc l) :
    SortedDesc (l.take n) :=
  List.Chain'.take h n

theorem sortedDesc_of_length_le_one (l : List Item) (h : l.length ≤ 1) :
    SortedDesc l := by
  match l with
  | [] => simp [SortedDesc]
  | [x] => simp [SortedDesc]
  | x :: y :: ys => simp at h

/-! Rerank client lemmas. -/

theorem dashScopeRerankClient_sorted (r : Option (List RerankEntry))
    (documents : List Item) (top_n : ℕ) (min_score : ℚ) :
    SortedDesc (dashScopeRerankClient r documents top_n min_score) := by
  unfold dashScopeRerankClient
  by_cases hd : documents = []
  · simp [hd, SortedDesc]
  · simp only [if_neg hd]
    match r with
    | none => exact sortByScoreDesc_sorted _
    | some results => exact sortedDesc_take _ _ (sortByScoreDesc_sorted _)

theorem dashScopeRerankClient_length (r : Option (List RerankEntry))
    (documents : List Item) (top_n : ℕ) (min_score : ℚ) :
    (dashScopeRerankClient r documents top_n min_score).length ≤ top_n := by
  unfold dashScopeRerankClient
  by_cases hd : documents = []
  · simp [hd]
  · simp only [if_neg hd]
    match r with
    | none =>
      rw [sortByScoreDesc_length]
      exact le_trans (List.length_take_le _ _) (le_refl _)
    | some results => exact List.length_take_le _ _

/-! Dedup idempotence. -/

theorem dedupGo_idem (l : List Item) :
    ∀ seen : List String, dedupGo seen (dedupGo seen l) = dedupGo seen l := by
  induction l with
  | nil => intro seen; rfl
  | cons x xs ih =>
    intro seen
    by_cases h : dedupKey x ∈ seen
    · simp [dedupGo, h, ih seen]
    · simp [dedupGo, h, ih (dedupKey x :: seen)]

/-- A sample retrieved item used by concrete witness instantiations. -/
def sampleItem : Item :=
  { content := "alpha", score := 1 / 2, source := "vector" }

/-- A second sample retrieved item used by concrete witness
instantiations. -/
def sampleItem2 : Item :=
  { content := "beta", score := 3 / 4, source := "graph" }

/-- C5: fusion deduplication is idempotent — deduplicating by the hash of
the first 200 characters of content, keeping the first-seen item per
hash, yields the same list when applied a second time to its own
output. -/
theorem dedup_by_content_prefix_idempotent (l : List Item) :
    dedupByContentPrefix (dedupByContentPrefix l) = dedupByContentPrefix l :=
  dedupGo_idem l []

/-- C4: when the combined stamped per-origin input of fusion is empty, the
reranker node returns an empty context without invoking the rerank
capability; when it contains exactly one item, it returns that item
unchanged (content, score and source untouched, origin already stamped)
without invoking the rerank capability. -/
theorem fusion_empty_and_singleton (rerankEnabled : Bool)
    (outcome : RerankOutcome) (n : ℕ) (ms : ℚ) (v g t : List Item) :
    (stampedConcat v g t = [] →
      rerankerNode rerankEnabled outcome n ms v g t =
        { context := [], rerankInvoked := false }) ∧
    (∀ x, stampedConcat v g t = [x] →
      rerankerNode rerankEnabled outcome n ms v g t =
        { context := [x], rerankInvoked := false }) := by
  constructor
  · intro h
    simp [rerankerNode, h]
  · intro x h
    simp [rerankerNode, h]

/-- C4 witness: concrete instantiations of both parts of the theorem, at
empty input and at a one-item vector input. -/
theorem fusion_empty_and_singleton_witness :
    (stampedConcat [] [] [] = [] ∧
      rerankerNode true (.api none) 5 (3 / 10) [] [] [] =
        { context := [], rerankInvoked := false }) ∧
    (stampedConcat [sampleItem] [] [] = [stampSource "vector" sampleItem] ∧
      rerankerNode true (.api none) 5 (3 / 10) [sampleItem] [] [] =
        { context := [stampSource "vector" sampleItem],
          rerankInvoked := false }) :=
  ⟨⟨rfl, (fusion_empty_and_singleton true (.api none) 5 (3 / 10) [] [] []).1 rfl⟩,
   ⟨rfl, (fusion_empty_and_singleton true (.api none) 5 (3 / 10)
      [sampleItem] [] []).2 (stampSource "vector" sampleItem) rfl⟩⟩

/-- C9: for every fusion invocation with a positive configured maximum,
the context list produced for the grader and generator is ordered by
descending relevance score and contains at most vector_search_results
items (default 5). -/
theorem fusion_context_sorted_and_bounded (rerankEnabled : Bool)
    (outcome : RerankOutcome) (n : ℕ) (ms : ℚ) (v g t : List Item)
    (hn : 1 ≤ n) :
    SortedDesc (rerankerNode rerankEnabled outcome n ms v g t).context ∧
    (rerankerNode rerankEnabled outcome n ms v g t).context.length ≤ n := by
  unfold rerankerNode
  by_cases h0 : stampedConcat v g t = []
  · simp [h0, SortedDesc]
  · by_cases h1 : (stampedConcat v g t).length ≤ 1
    · simp only [if_neg h0, if_pos h1]
      exact ⟨sortedDesc_of_length_le_one _ h1, le_trans h1 hn⟩
    · simp only [if_neg h0, if_neg h1]
      cases rerankEnabled with
      | false =>
        simp only [Bool.false_eq_true, if_neg (by simp : ¬False)]
        exact ⟨sortedDesc_take _ _ (sortByScoreDesc_sorted _),
          List.length_take_le _ _⟩
      | true =>
        simp only [if_pos rfl]
        cases outcome with
        | raised =>
          exact ⟨sortedDesc_take _ _ (sortByScoreDesc_sorted _),
            List.length_take_le _ _⟩
        | api r =>
          exact ⟨dashScopeRerankClient_sorted _ _ _ _,
            dashScopeRerankClient_length _ _ _ _⟩

/-- C9 witness: the theorem applied at the default configured maximum 5
with a concrete two-item input and rerank disabled. -/
theorem fusion_context_sorted_and_bounded_witness :
    1 ≤ defaultVectorSearchResults ∧
    (SortedDesc (rerankerNode false (.api none) defaultVectorSearchResults
        defaultMinRelevanceScore [sampleItem] [sampleItem2] []).context ∧
      (rerankerNode false (.api none) defaultVectorSearchResults
        defaultMinRelevanceScore
        [sampleItem] [sampleItem2] []).context.length ≤
        defaultVectorSearchResults) :=
  ⟨by decide,
   fusion_context_sorted_and_bounded false (.api none)
     defaultVectorSearchResults defaultMinRelevanceScore
     [sampleItem] [sampleItem2] [] (by decide)⟩

/-- C10: the vector retriever invokes the rerank capability exactly when
reranking is enabled and at least one raw result was obtained; in every
case (reranked, rerank-raised, rerank-disabled) it returns at most
vector_search_results items, and the returned list is ordered by
descending score. -/
theorem vector_retriever_rerank_bounds
    (orgOutcomes : List (Except Unit (List RawVectorRow)))
    (n : ℕ) (ms : ℚ) (rerankEnabled : Bool) (outcome : RerankOutcome) :
    ((vectorRetrieverNode orgOutcomes n ms rerankEnabled
        outcome).rerankInvoked = true ↔
      (vectorRawResults orgOutcomes ≠ [] ∧ rerankEnabled = true)) ∧
    (vectorRetrieverNode orgOutcomes n ms rerankEnabled
        outcome).vector_context.length ≤ n ∧
    SortedDesc (vectorRetrieverNode orgOutcomes n ms rerankEnabled
        outcome).vector_context := by
  have hlen : sortByScoreDesc (vectorRawResults orgOutcomes) = [] ↔
      vectorRawResults orgOutcomes = [] := by
    constructor
    · intro h
      have := sortByScoreDesc_length (vectorRawResults orgOutcomes)
      rw [h] at this
      exact List.length_eq_zero.mp this.symm
    · intro h; rw [h]; rfl
  unfold vectorRetrieverNode
  by_cases hc : sortByScoreDesc (vectorRawResults orgOutcomes) ≠ [] ∧
      rerankEnabled = true
  · simp only [if_pos hc]
    cases outcome with
    | raised =>
      refine ⟨?_, List.length_take_le _ _,
        sortedDesc_take _ _ (sortByScoreDesc_sorted _)⟩
      simp only [true_iff]
      exact ⟨fun h => hc.1 (hlen.mpr h), hc.2⟩
    | api r =>
      refine ⟨?_, dashScopeRerankClient_length _ _ _ _,
        dashScopeRerankClient_sorted _ _ _ _⟩
      simp only [true_iff]
      exact ⟨fun h => hc.1 (hlen.mpr h), hc.2⟩
  · simp only [if_neg hc]
    refine ⟨?_, List.length_take_le _ _,
      sortedDesc_take _ _ (sortByScoreDesc_sorted _)⟩
    simp only [Bool.false_eq_true, false_iff]
    intro hcon
    exact hc ⟨fun h => hcon.1 (hlen.mp h), hcon.2⟩

/-! Sufficiency pre-check and final grader (backend/agent/nodes.py). -/

/-- ASCII whitespace (space, tab, newline, carriage return, vertical tab,
form feed), as stripped by Python str.strip() and matched by the regex
class backslash-s. -/
def pyIsSpace (c : Char) : Bool :=
  c = ' ' || c = Char.ofNat 9 || c = Char.ofNat 10 || c = Char.ofNat 13 ||
  c = Char.ofNat 11 || c = Char.ofNat 12

/-- Python str.strip(): remove leading and trailing whitespace. -/
def pyStrip (s : String) : String :=
  String.mk
    (((s.toList.dropWhile pyIsSpace).reverse.dropWhile
      pyIsSpace).reverse)

/-- Python str.upper() restricted to ASCII letters. -/
def pyUpper (s : String) : String := String.mk (s.toList.map Char.toUpper)

/-- Python str.lower() restricted to ASCII letters. -/
def pyLower (s : String) : String := String.mk (s.toList.map Char.toLower)

/-- needle is a leading segment of hay (character lists). -/
def isPrefixChars : List Char → List Char → Bool
  | [], _ => true
  | _ :: _, [] => false
  | p :: ps, c :: cs => p = c && isPrefixChars ps cs

/-- needle occurs contiguously somewhere inside hay (character lists). -/
def isInfixChars (needle : List Char) : List Char → Bool
  | [] => needle.isEmpty
  | c :: cs => isPrefixChars needle (c :: cs) || isInfixChars needle cs

/-- Python substring membership needle in hay, as used by the LLM verdict
parsing in both grading stages. -/
def containsSub (needle hay : String) : Bool :=
  isInfixChars needle.toList hay.toList

/-- Output of the retrieval_evaluator node: the retrieval_status it writes
and whether it made an LLM call. -/
structure EvalOutput where
  retrieval_status : String
  llmCalled : Bool
  deriving Repr, DecidableEq

/-- retrieval_evaluator from backend/agent/nodes.py (lines 636-701): when
both vector and temp context are empty it returns insufficient without
calling the LLM; otherwise it asks the LLM and parses a YES substring of
the stripped upper-cased response (sufficient on YES, insufficient
otherwise); a raised LLM call defaults to insufficient. -/
def retrievalEvaluatorNode (vector_context temp_context : List Item)
    (llm : Except Unit String) : EvalOutput :=
  if vector_context = [] ∧ temp_context = [] then
    { retrieval_status := "insufficient", llmCalled := false }
  else
    match llm with
    | .error _ => { retrieval_status := "insufficient", llmCalled := true }
    | .ok response =>
      if containsSub "YES" (pyUpper (pyStrip response)) then
        { retrieval_status := "sufficient", llmCalled := true }
      else
        { retrieval_status := "insufficient", llmCalled := true }

/-- route_retrieval_evaluator from backend/agent/graph.py (lines 85-90):
sufficient goes to the reranker, anything else to the graph retriever;
the retrieval mode is not consulted. -/
def routeRetrievalEvaluator (retrieval_status : String) : String :=
  if retrieval_status = "sufficient" then "reranker" else "graph_retriever"

/-- Output of the grader node: the grade it writes and whether it made an
LLM call. -/
structure GradeOutput where
  grade : String
  llmCalled : Bool
  deriving Repr, DecidableEq

/-- grader from backend/agent/nodes.py (lines 494-558): empty context is
graded insufficient without an LLM call; otherwise the LLM is asked and
a yes substring of the stripped lower-cased response means relevant; a
raised LLM call defaults to relevant. -/
def graderNode (context : List Item) (llm : Except Unit String) :
    GradeOutput :=
  if context = [] then
    { grade := "insufficient", llmCalled := false }
  else
    match llm with
    | .error _ => { grade := "relevant", llmCalled := true }
    | .ok response =>
      if containsSub "yes" (pyLower (pyStrip response)) then
        { grade := "relevant", llmCalled := true }
      else
        { grade := "insufficient", llmCalled := true }

/-- route_grader from backend/agent/graph.py (lines 77-82). -/
def routeGrader (grade : String) : String :=
  if grade = "relevant" then "generator" else "insufficient_handler"

/-- The fixed fallback answer of insufficient_handler
(backend/agent/nodes.py lines 628-633). -/
def insufficientAnswer : String :=
  "I couldn\x27t find sufficient information to answer your question. Please try rephrasing or provide more context."

/-- C6: a sufficiency pre-check that receives zero vector and zero
ephemeral items returns the insufficient status without any LLM call,
whatever the LLM oracle would have answered, and the orchestrator then
routes to the graph retriever. -/
theorem precheck_empty_short_circuits_to_graph (llm : Except Unit String) :
    retrievalEvaluatorNode [] [] llm =
      { retrieval_status := "insufficient", llmCalled := false } ∧
    routeRetrievalEvaluator
      (retrievalEvaluatorNode [] [] llm).retrieval_status =
      "graph_retriever" := by
  constructor
  · simp [retrievalEvaluatorNode]
  · simp [retrievalEvaluatorNode, routeRetrievalEvaluator]

/-- C7: the two grading stages default asymmetrically on a raised LLM
call — the sufficiency pre-check returns insufficient, while the final
grader (on a non-empty context, the only case in which it calls the
LLM) returns relevant. -/
theorem grading_error_defaults_asymmetric (vc tc ctx : List Item)
    (h : ctx ≠ []) :
    (retrievalEvaluatorNode vc tc (.error ())).retrieval_status =
      "insufficient" ∧
    graderNode ctx (.error ()) = { grade := "relevant", llmCalled := true } := by
  constructor
  · unfold retrievalEvaluatorNode
    by_cases he : vc = [] ∧ tc = [] <;> simp [he]
  · simp [graderNode, h]

/-- C7 witness: the theorem applied at a one-item context. -/
theorem grading_error_defaults_asymmetric_witness :
    [sampleItem] ≠ ([] : List Item) ∧
    ((retrievalEvaluatorNode [] [] (.error ())).retrieval_status =
        "insufficient" ∧
      graderNode [sampleItem] (.error ()) =
        { grade := "relevant", llmCalled := true }) :=
  ⟨by decide,
   grading_error_defaults_asymmetric [] [] [sampleItem] (by decide)⟩

/-! URL extraction: re.findall of the pattern
https?://[^\s<>\x22\x27)\]]+|www\.[^\s<>\x22\x27)\]]+ followed by
rstrip of trailing punctuation and set deduplication. The same pattern
appears in backend/agent/url_intent.py, backend/agent/nodes.py (router)
and backend/ingestion/temp_knowledge.py; only the last adds an https
scheme to www-form matches. -/

/-- Characters excluded from a URL match: whitespace, angle brackets,
double quote (34), single quote (39), closing parenthesis and closing
square bracket. -/
def urlExcluded (c : Char) : Bool :=
  pyIsSpace c || c = '<' || c = '>' || c = Char.ofNat 34 ||
  c = Char.ofNat 39 || c = ')' || c = ']'

/-- A character the URL character class accepts. -/
def isUrlChar (c : Char) : Bool := !(urlExcluded c)

/-- Drop a literal prefix from a character list, returning the remainder
when the whole literal matches. -/
def stripLit : List Char → List Char → Option (List Char)
  | [], rest => some rest
  | _ :: _, [] => none
  | p :: ps, c :: cs => if c = p then stripLit ps cs else none

/-- Try to match one regex alternative at the current position: a literal
scheme (https://, then http://, then www.) followed by at least one URL
character, greedily consumed. Returns the matched characters and the
remainder. Alternation order and greediness follow Python re semantics
for this pattern. -/
def matchUrlBranch (cs : List Char) : Option (List Char × List Char) :=
  let tryLit : String → Option (List Char × List Char) := fun lit =>
    match stripLit lit.toList cs with
    | none => none
    | some rest =>
      let run := rest.takeWhile isUrlChar
      if run.isEmpty then none
      else some (lit.toList ++ run, rest.dropWhile isUrlChar)
  match tryLit "https://" with
  | some r => some r
  | none =>
    match tryLit "http://" with
    | some r => some r
    | none => tryLit "www."

/-- Fuel-indexed scan of re.findall: at each position try the pattern,
emit the match and continue after it, otherwise advance one character.
The fuel bounds the number of steps; each step consumes at least one
character, so fuel = input length is always enough. -/
def findUrlsGo : ℕ → List Char → List (List Char)
  | 0, _ => []
  | _ + 1, [] => []
  | fuel + 1, c :: cs =>
    match matchUrlBranch (c :: cs) with
    | some (m, rest) => m :: findUrlsGo fuel rest
    | none => findUrlsGo fuel cs

/-- re.findall of the URL pattern over a question text. -/
def findUrls (cs : List Char) : List (List Char) :=
  findUrlsGo cs.length cs

/-- url.rstrip of the trailing punctuation characters . , ; : ! ?. -/
def pyRstripPunct (s : String) : String :=
  String.mk
    ((s.toList.reverse.dropWhile
      (fun c => [ '.', ',', ';', ':', '!', '?' ].contains c)).reverse)

/-- URL extraction as performed by the agent (router in
backend/agent/nodes.py lines 89-96 and url_intent_detector in
backend/agent/url_intent.py lines 64-69): findall, strip trailing
punctuation, deduplicate via list(set(...)). Python set iteration order
is unspecified; it is modelled by first-occurrence order, and claims
about this function are stated up to membership. No scheme is added. -/
def extractUrlsAgent (question : String) : List String :=
  (((findUrls question.toList).map
    (fun m => pyRstripPunct (String.mk m)))).eraseDups

/-- extract_urls_from_text from backend/ingestion/temp_knowledge.py
(lines 66-86): same findall and rstrip, but a match starting with www.
gets the https:// scheme prepended before deduplication. -/
def extract_urls_from_text (text : String) : List String :=
  (((findUrls text.toList).map
    (fun m =>
      let url := pyRstripPunct (String.mk m)
      if isPrefixChars "www.".toList url.toList then "https://" ++ url
      else url))).eraseDups

/-! The LangGraph workflow of backend/agent/graph.py. A run proceeds in
supersteps: all nodes fanned out by a conditional edge execute in the
same superstep, dispatched concurrently (route_after_router is
documented as returning a list of nodes to execute to enable parallel
execution); a node with incoming edges from several nodes of one
superstep executes once in the following superstep. A completes-before
ordering between two executed nodes therefore holds exactly when the
first one's superstep index is strictly smaller. -/

/-- The nodes of the compiled workflow. -/
inductive AgentNode where
  | url_intent_detector
  | direct_url_summarizer
  | router
  | url_processor
  | vector_retriever
  | graph_retriever
  | temp_retriever
  | reranker
  | retrieval_evaluator
  | grader
  | generator
  | insufficient_handler
  deriving Repr, DecidableEq

/-- Python truthiness of an optional string state field (absent and empty
strings are falsy). -/
def optTruthy : Option String → Bool
  | none => false
  | some s => !(s == "")

/-- Output of the router node. -/
structure RouterOutput where
  retrieval_mode : String
  detected_urls : List String
  deriving Repr, DecidableEq

/-- router from backend/agent/nodes.py (lines 77-119): detects URLs in the
question; with a non-empty file_ids list it sets mode vector_only,
otherwise parallel. -/
def routerNode (question : String) (file_ids : List String) : RouterOutput :=
  let detected_urls := extractUrlsAgent question
  if file_ids ≠ [] then
    { retrieval_mode := "vector_only", detected_urls := detected_urls }
  else
    { retrieval_mode := "parallel", detected_urls := detected_urls }

/-- Output of the url_intent_detector node. -/
structure IntentOutput where
  url_summarize_direct : Bool
  detected_urls : List String
  deriving Repr, DecidableEq

/-- url_intent_detector from backend/agent/url_intent.py (lines 47-124):
no URLs or uploaded temp files force the RAG flow; otherwise the LLM
verdict is parsed for a DIRECT_SUMMARY substring, and a raised LLM call
defaults to the RAG flow. -/
def urlIntentDetectorNode (question : String) (temp_files : List String)
    (llm : Except Unit String) : IntentOutput :=
  let detected_urls := extractUrlsAgent question
  if detected_urls = [] then
    { url_summarize_direct := false, detected_urls := [] }
  else if temp_files ≠ [] then
    { url_summarize_direct := false, detected_urls := detected_urls }
  else
    match llm with
    | .error _ =>
      { url_summarize_direct := false, detected_urls := detected_urls }
    | .ok response =>
      { url_summarize_direct := containsSub "DIRECT_SUMMARY"
          (pyUpper (pyStrip response)),
        detected_urls := detected_urls }

/-- route_after_intent from backend/agent/graph.py (lines 33-41). -/
def routeAfterIntent (url_summarize_direct : Bool) : AgentNode :=
  if url_summarize_direct then .direct_url_summarizer else .router

/-- route_after_router from backend/agent/graph.py (lines 44-74): builds
the fan-out list executed in the next superstep — url_processor first
when URLs were detected and a session is present, always
vector_retriever, and temp_retriever when the session has qualifying
data. The retrieval_mode is read into a local but never used: the graph
retriever is never part of this fan-out, in any mode. -/
def routeAfterRouter (retrieval_mode : String) (detected_urls : List String)
    (session_id : Option String) (temp_files : List String)
    (hasTempData : Bool) : List AgentNode :=
  let nodes : List AgentNode := []
  let nodes := if detected_urls ≠ [] ∧ optTruthy session_id = true then
      nodes ++ [.url_processor] else nodes
  let nodes := nodes ++ [.vector_retriever]
  let nodes := if optTruthy session_id = true ∧
      (temp_files ≠ [] ∨ detected_urls ≠ [] ∨ hasTempData = true) then
      nodes ++ [.temp_retriever] else nodes
  if nodes = [] then [.vector_retriever] else nodes

/-- One row of a session temp-collection query response. -/
structure TempRow where
  document : String
  distance : ℚ
  rowSource : String := "temp"
  rowSourceType : String := "temp"
  rowMeta : List (String × String) := []
  deriving Repr, DecidableEq

/-- temp_retriever from backend/agent/temp_nodes.py (lines 72-133): no
truthy session or no stored temp data yields an empty list without
querying; a raised query yields an empty list; otherwise rows become
items with similarity score max(0, 1 - distance). -/
def tempRetrieverNode (session_id : Option String) (hasTempData : Bool)
    (queryOutcome : Except Unit (List TempRow)) : List Item :=
  if optTruthy session_id = false then []
  else if hasTempData = false then []
  else
    match queryOutcome with
    | .error _ => []
    | .ok rows => rows.map (fun r =>
        { content := r.document, score := max 0 (1 - r.distance),
          source := r.rowSource, sourceType := some r.rowSourceType,
          metadata := r.rowMeta })

/-- graph_retriever from backend/agent/nodes.py (lines 200-393): an
unavailable cypher chain or a raised invocation yields no graph
context; a successful invocation with non-empty answer text yields one
graph item with fixed score 0.8. -/
def graphRetrieverNode (chainAvailable : Bool)
    (chainResult : Except Unit String) : List Item :=
  if chainAvailable = false then []
  else
    match chainResult with
    | .error _ => []
    | .ok context_data =>
      if context_data ≠ "" then
        [{ content := context_data, score := 4 / 5, source := "graph",
           metadata := [("type", "graph_query")] }]
      else []

/-- direct_url_summarizer from backend/agent/url_intent.py (lines
127-195): returns the answer text and the single url_direct context
item on success; fetch failures and raised calls produce error answers
and no context. -/
def directUrlSummarizerNode (detected_urls : List String)
    (fetched : Except String (List String)) (llm : Except String String) :
    String × List Item :=
  if detected_urls = [] then ("No URLs found in your message.", [])
  else
    match fetched with
    | .error e => ("Error processing URL: " ++ e, [])
    | .ok url_contents =>
      if url_contents = [] then
        ("Unable to fetch content from " ++ detected_urls.headD "" ++
          ". The page may be inaccessible or require authentication.", [])
      else
        let content := (url_contents.headD "").take 8000
        match llm with
        | .error e => ("Error processing URL: " ++ e, [])
        | .ok answer =>
          (answer,
           [{ content := content.take 500 ++ "...", score := 0,
              source := detected_urls.headD "",
              sourceType := some "url_direct" }])

/-- generator from backend/agent/nodes.py (lines 561-625): the LLM chat
answer, or an apologetic error answer embedding the raised error. -/
def generatorAnswer (llm : Except String String) : String :=
  match llm with
  | .ok answer => answer
  | .error e => "I encountered an error generating the answer: " ++ e

/-- The immutable request fields of one pipeline run. -/
structure RequestInput where
  question : String
  file_ids : List String
  session_id : Option String
  temp_files : List String
  deriving Repr, DecidableEq

/-- The external-world oracles of one pipeline run: LLM responses, store
query responses, rerank API outcomes and the configuration consumed by
the nodes. -/
structure Oracles where
  intentLLM : Except Unit String
  directFetch : Except String (List String)
  directLLM : Except String String
  orgOutcomes : List (Except Unit (List RawVectorRow))
  vectorRerankOutcome : RerankOutcome
  tempHasData : Bool
  tempQuery : Except Unit (List TempRow)
  graphChainAvailable : Bool
  graphChainResult : Except Unit String
  evaluatorLLM : Except Unit String
  fusionRerankOutcome : RerankOutcome
  graderLLM : Except Unit String
  generatorLLM : Except String String
  rerankEnabled : Bool
  vector_search_results : ℕ
  min_relevance_score : ℚ

/-- The intent decision of a run. -/
def runIntent (inp : RequestInput) (o : Oracles) : IntentOutput :=
  urlIntentDetectorNode inp.question inp.temp_files o.intentLLM

/-- The router output of a run (RAG branch). -/
def runRouter (inp : RequestInput) : RouterOutput :=
  routerNode inp.question inp.file_ids

/-- The fan-out of retrieval nodes dispatched after the router. -/
def runFan (inp : RequestInput) (o : Oracles) : List AgentNode :=
  routeAfterRouter (runRouter inp).retrieval_mode
    (runRouter inp).detected_urls inp.session_id inp.temp_files o.tempHasData

/-- The vector_context written by the vector retriever in a run. -/
def runVectorContext (o : Oracles) : List Item :=
  (vectorRetrieverNode o.orgOutcomes o.vector_search_results
    o.min_relevance_score o.rerankEnabled o.vectorRerankOutcome).vector_context

/-- The temp_context of a run: written by the temp retriever when it was
dispatched, absent (empty) otherwise. -/
def runTempContext (inp : RequestInput) (o : Oracles) : List Item :=
  if AgentNode.temp_retriever ∈ runFan inp o then
    tempRetrieverNode inp.session_id o.tempHasData o.tempQuery
  else []

/-- The sufficiency pre-check output of a run. -/
def runEval (inp : RequestInput) (o : Oracles) : EvalOutput :=
  retrievalEvaluatorNode (runVectorContext o) (runTempContext inp o)
    o.evaluatorLLM

/-- Where the evaluator routes: reranker or graph_retriever. -/
def runNext (inp : RequestInput) (o : Oracles) : String :=
  routeRetrievalEvaluator (runEval inp o).retrieval_status

/-- The graph_context of a run: written by the graph retriever when the
evaluator routed to it, absent (empty) otherwise. -/
def runGraphContext (inp : RequestInput) (o : Oracles) : List Item :=
  if runNext inp o = "graph_retriever" then
    graphRetrieverNode o.graphChainAvailable o.graphChainResult
  else []

/-- The fusion output of a run. -/
def runFusion (inp : RequestInput) (o : Oracles) : FusionOutput :=
  rerankerNode o.rerankEnabled o.fusionRerankOutcome o.vector_search_results
    o.min_relevance_score (runVectorContext o) (runGraphContext inp o)
    (runTempContext inp o)

/-- The final grading output of a run. -/
def runGrade (inp : RequestInput) (o : Oracles) : GradeOutput :=
  graderNode (runFusion inp o).context o.graderLLM

/-- The terminal node of the RAG branch: generator or the insufficient
handler, per route_grader. -/
def runFinalNode (inp : RequestInput) (o : Oracles) : AgentNode :=
  if routeGrader (runGrade inp o).grade = "generator" then .generator
  else .insufficient_handler

/-- The observable trace of one pipeline run: the superstep schedule and
the state fields produced along the way. -/
structure RunTrace where
  supersteps : List (List AgentNode)
  detected_urls : List String
  retrieval_mode : String
  vector_context : List Item
  temp_context : List Item
  graph_context : List Item
  retrieval_status : String
  context : List Item
  grade : String
  answer : String
  deriving Repr, DecidableEq

/-- One full execution of the compiled workflow of
backend/agent/graph.py, given the request and the oracles: the direct
URL summary branch bypasses retrieval entirely; the RAG branch runs
router, the retrieval fan-out, the evaluator, conditionally the graph
retriever, then fusion, grading and the terminal node. -/
def runPipeline (inp : RequestInput) (o : Oracles) : RunTrace :=
  if (runIntent inp o).url_summarize_direct then
    { supersteps := [[.url_intent_detector], [.direct_url_summarizer]],
      detected_urls := (runIntent inp o).detected_urls,
      retrieval_mode := "",
      vector_context := [], temp_context := [], graph_context := [],
      retrieval_status := "",
      context := (directUrlSummarizerNode (runIntent inp o).detected_urls
        o.directFetch o.directLLM).2,
      grade := "",
      answer := (directUrlSummarizerNode (runIntent inp o).detected_urls
        o.directFetch o.directLLM).1 }
  else
    { supersteps :=
        [[.url_intent_detector], [.router], runFan inp o,
          [.retrieval_evaluator]] ++
        (if runNext inp o = "graph_retriever" then [[.graph_retriever]]
         else []) ++
        [[.reranker], [.grader], [runFinalNode inp o]],
      detected_urls := (runRouter inp).detected_urls,
      retrieval_mode := (runRouter inp).retrieval_mode,
      vector_context := runVectorContext o,
      temp_context := runTempContext inp o,
      graph_context := runGraphContext inp o,
      retrieval_status := (runEval inp o).retrieval_status,
      context := (runFusion inp o).context,
      grade := (runGrade inp o).grade,
      answer := if runFinalNode inp o = .generator then
          generatorAnswer o.generatorLLM
        else insufficientAnswer }

/-- All nodes executed in a run, in superstep order. -/
def executedNodes (t : RunTrace) : List AgentNode := t.supersteps.flatten

/-- The index of the first superstep of a schedule containing a node. -/
def superstepIdx (n : AgentNode) : List (List AgentNode) → Option ℕ
  | [] => none
  | s :: rest => if n ∈ s then some 0 else (superstepIdx n rest).map (· + 1)

/-- The index of the superstep in which a node executed, if it did. -/
def superstepOf (t : RunTrace) (n : AgentNode) : Option ℕ :=
  superstepIdx n t.supersteps

/-- Node a is guaranteed to complete before node b starts: both executed
and the superstep of a strictly precedes the superstep of b. Nodes of
one superstep are dispatched concurrently, with no mutual ordering. -/
def completesBefore (t : RunTrace) (a b : AgentNode) : Prop :=
  ∃ i j, superstepOf t a = some i ∧ superstepOf t b = some j ∧ i < j

/-! Structural lemmas about the fan-out and the run schedule. -/

theorem mem_routeAfterRouter (retrieval_mode : String)
    (detected_urls : List String) (session_id : Option String)
    (temp_files : List String) (hasTempData : Bool) (n : AgentNode)
    (h : n ∈ routeAfterRouter retrieval_mode detected_urls session_id
      temp_files hasTempData) :
    n = .url_processor ∨ n = .vector_retriever ∨ n = .temp_retriever := by
  unfold routeAfterRouter at h
  by_cases h1 : detected_urls ≠ [] ∧ optTruthy session_id = true <;>
    by_cases h2 : optTruthy session_id = true ∧
      (temp_files ≠ [] ∨ detected_urls ≠ [] ∨ hasTempData = true) <;>
    simp [h1, h2] at h <;> tauto

theorem graph_retriever_not_in_fan (inp : RequestInput) (o : Oracles) :
    AgentNode.graph_retriever ∉ runFan inp o := by
  intro h
  rcases mem_routeAfterRouter _ _ _ _ _ _ h with h' | h' | h' <;> cases h'

theorem generator_not_in_fan (inp : RequestInput) (o : Oracles) :
    AgentNode.generator ∉ runFan inp o := by
  intro h
  rcases mem_routeAfterRouter _ _ _ _ _ _ h with h' | h' | h' <;> cases h'

theorem runFinalNode_ne_graph (inp : RequestInput) (o : Oracles) :
    runFinalNode inp o ≠ .graph_retriever := by
  unfold runFinalNode
  by_cases h : routeGrader (runGrade inp o).grade = "generator" <;> simp [h]

theorem runPipeline_supersteps (inp : RequestInput) (o : Oracles)
    (hd : (runIntent inp o).url_summarize_direct = false) :
    (runPipeline inp o).supersteps =
      [[.url_intent_detector], [.router], runFan inp o,
        [.retrieval_evaluator]] ++
      (if runNext inp o = "graph_retriever" then [[.graph_retriever]]
       else []) ++
      [[.reranker], [.grader], [runFinalNode inp o]] := by
  unfold runPipeline
  rw [if_neg (by simp [hd])]

theorem runPipeline_answer (inp : RequestInput) (o : Oracles)
    (hd : (runIntent inp o).url_summarize_direct = false) :
    (runPipeline inp o).answer =
      (if runFinalNode inp o = .generator then generatorAnswer o.generatorLLM
       else insufficientAnswer) := by
  unfold runPipeline
  rw [if_neg (by simp [hd])]

theorem runPipeline_retrieval_mode (inp : RequestInput) (o : Oracles)
    (hd : (runIntent inp o).url_summarize_direct = false) :
    (runPipeline inp o).retrieval_mode = (runRouter inp).retrieval_mode := by
  unfold runPipeline
  rw [if_neg (by simp [hd])]

theorem graph_executed_iff (inp : RequestInput) (o : Oracles)
    (hd : (runIntent inp o).url_summarize_direct = false) :
    AgentNode.graph_retriever ∈ executedNodes (runPipeline inp o) ↔
      runNext inp o = "graph_retriever" := by
  have h1 := graph_retriever_not_in_fan inp o
  have h2 : AgentNode.graph_retriever ≠ runFinalNode inp o :=
    fun h => runFinalNode_ne_graph inp o h.symm
  unfold executedNodes
  rw [runPipeline_supersteps inp o hd]
  by_cases hnx : runNext inp o = "graph_retriever" <;> simp [hnx, h1, h2]

theorem generator_not_executed (inp : RequestInput) (o : Oracles)
    (hd : (runIntent inp o).url_summarize_direct = false)
    (hfin : runFinalNode inp o = .insufficient_handler) :
    AgentNode.generator ∉ executedNodes (runPipeline inp o) := by
  have h1 := generator_not_in_fan inp o
  have h2 : AgentNode.generator ≠ runFinalNode inp o := by simp [hfin]
  unfold executedNodes
  rw [runPipeline_supersteps inp o hd]
  by_cases hnx : runNext inp o = "graph_retriever" <;> simp [hnx, h1, h2]

/-! Concrete runs used by counterexamples and witnesses. -/

/-- Oracles for a run in which every external service is down or empty:
all LLM calls raise, no organization collections respond, the session
has no temp data, the graph chain is unavailable and reranking is
disabled, with the default configuration values. -/
def sampleOraclesDown : Oracles :=
  { intentLLM := .error (), directFetch := .error "down",
    directLLM := .error "down", orgOutcomes := [],
    vectorRerankOutcome := .raised, tempHasData := false,
    tempQuery := .error (), graphChainAvailable := false,
    graphChainResult := .error (), evaluatorLLM := .error (),
    fusionRerankOutcome := .raised, graderLLM := .error (),
    generatorLLM := .error "down", rerankEnabled := false,
    vector_search_results := defaultVectorSearchResults,
    min_relevance_score := defaultMinRelevanceScore }

/-- sampleOraclesDown with an intent LLM that answers RAG_QUERY. -/
def ragIntentOracles : Oracles :=
  { sampleOraclesDown with intentLLM := .ok "RAG_QUERY" }

/-- A request that pins one file and carries no URLs or session. -/
def pinnedInput : RequestInput :=
  { question := "What changed in this file", file_ids := ["file-1"],
    session_id := none, temp_files := [] }

/-- A request with a URL in the question and a session, no pinned files
and no uploaded temp files. -/
def urlSessionInput : RequestInput :=
  { question := "what does https://example.com say", file_ids := [],
    session_id := some "sess-1", temp_files := [] }

/-- A plain request: no URLs, no pinned files, no session. -/
def plainInput : RequestInput :=
  { question := "hello there", file_ids := [], session_id := none,
    temp_files := [] }

/-- C1 counterexample: a request with a pinned file whose retrieval comes
back empty. The router sets vector-only mode, the empty pre-check
short-circuits to insufficient, and route_retrieval_evaluator — which
never consults the mode — dispatches the graph retriever, so the graph
adapter executes in this pinned-file run. -/
theorem pinned_files_graph_executes_counterexample :
    (runPipeline pinnedInput sampleOraclesDown).retrieval_mode =
      "vector_only" ∧
    AgentNode.graph_retriever ∈
      executedNodes (runPipeline pinnedInput sampleOraclesDown) := by
  constructor
  · decide
  · decide

/-- C1 amended: with a non-empty pinned file-ID set (on the RAG branch),
the router sets vector-only mode and the graph retriever is never part
of the primary fan-out; but the orchestrator dispatches the graph
retriever after the pre-check exactly when the pre-check status is not
sufficient, regardless of the mode — so the graph adapter can still
execute in such a run. -/
theorem pinned_files_vector_only_graph_after_insufficient
    (inp : RequestInput) (o : Oracles) (hf : inp.file_ids ≠ [])
    (hd : (runIntent inp o).url_summarize_direct = false) :
    (runPipeline inp o).retrieval_mode = "vector_only" ∧
    AgentNode.graph_retriever ∉ runFan inp o ∧
    (AgentNode.graph_retriever ∈ executedNodes (runPipeline inp o) ↔
      (runEval inp o).retrieval_status ≠ "sufficient") := by
  refine ⟨?_, graph_retriever_not_in_fan inp o, ?_⟩
  · rw [runPipeline_retrieval_mode inp o hd]
    simp [runRouter, routerNode, hf]
  · rw [graph_executed_iff inp o hd]
    unfold runNext routeRetrievalEvaluator
    by_cases h : (runEval inp o).retrieval_status = "sufficient" <;> simp [h]

/-- C1 witness: the amended theorem applied to the concrete pinned-file
run. -/
theorem pinned_files_vector_only_graph_after_insufficient_witness :
    pinnedInput.file_ids ≠ [] ∧
    (runIntent pinnedInput sampleOraclesDown).url_summarize_direct = false ∧
    ((runPipeline pinnedInput sampleOraclesDown).retrieval_mode =
        "vector_only" ∧
      AgentNode.graph_retriever ∉ runFan pinnedInput sampleOraclesDown ∧
      (AgentNode.graph_retriever ∈
          executedNodes (runPipeline pinnedInput sampleOraclesDown) ↔
        (runEval pinnedInput sampleOraclesDown).retrieval_status ≠
          "sufficient")) :=
  ⟨by decide, by decide,
   pinned_files_vector_only_graph_after_insufficient pinnedInput
     sampleOraclesDown (by decide) (by decide)⟩

/-- C2 counterexample: in the concrete run with a URL in the question and
a session present, url_processor and temp_retriever both execute but in
the same superstep (both fanned out by route_after_router), so URL
Intake is not guaranteed to complete before the ephemeral retriever
queries the session collection. -/
theorem url_intake_not_ordered_counterexample :
    AgentNode.url_processor ∈
      executedNodes (runPipeline urlSessionInput ragIntentOracles) ∧
    AgentNode.temp_retriever ∈
      executedNodes (runPipeline urlSessionInput ragIntentOracles) ∧
    ¬ completesBefore (runPipeline urlSessionInput ragIntentOracles)
        .url_processor .temp_retriever := by
  refine ⟨by decide, by decide, ?_⟩
  rintro ⟨i, j, hi, hj, hij⟩
  have h1 : superstepOf (runPipeline urlSessionInput ragIntentOracles)
      .url_processor = some 2 := by decide
  have h2 : superstepOf (runPipeline urlSessionInput ragIntentOracles)
      .temp_retriever = some 2 := by decide
  rw [h1] at hi
  rw [h2] at hj
  injection hi with hi
  injection hj with hj
  omega

/-- C2 amended: when URLs are detected and a truthy session is present
(on the RAG branch), url_processor is listed first in the fan-out and
temp_retriever is fanned out with it into the same superstep — the two
are dispatched concurrently, with no intake-before-query ordering — and
both complete before the sufficiency evaluator runs. -/
theorem url_intake_same_superstep_as_temp_retriever
    (inp : RequestInput) (o : Oracles)
    (hd : (runIntent inp o).url_summarize_direct = false)
    (hu : (runRouter inp).detected_urls ≠ [])
    (hs : optTruthy inp.session_id = true) :
    runFan inp o =
      [.url_processor, .vector_retriever, .temp_retriever] ∧
    superstepOf (runPipeline inp o) .url_processor = some 2 ∧
    superstepOf (runPipeline inp o) .temp_retriever = some 2 ∧
    completesBefore (runPipeline inp o) .url_processor
      .retrieval_evaluator ∧
    completesBefore (runPipeline inp o) .temp_retriever
      .retrieval_evaluator := by
  have hfan : runFan inp o =
      [.url_processor, .vector_retriever, .temp_retriever] := by
    simp [runFan, routeAfterRouter, hu, hs]
  have hup : superstepOf (runPipeline inp o) .url_processor = some 2 := by
    unfold superstepOf
    rw [runPipeline_supersteps inp o hd]
    simp [superstepIdx, hfan]
  have htr : superstepOf (runPipeline inp o) .temp_retriever = some 2 := by
    unfold superstepOf
    rw [runPipeline_supersteps inp o hd]
    simp [superstepIdx, hfan]
  have hre : superstepOf (runPipeline inp o) .retrieval_evaluator =
      some 3 := by
    unfold superstepOf
    rw [runPipeline_supersteps inp o hd]
    simp [superstepIdx, hfan]
  exact ⟨hfan, hup, htr,
    ⟨2, 3, hup, hre, by omega⟩, ⟨2, 3, htr, hre, by omega⟩⟩

/-- C2 witness: the amended theorem applied to the concrete URL-and-
session run. -/
theorem url_intake_same_superstep_witness :
    (runIntent urlSessionInput ragIntentOracles).url_summarize_direct =
      false ∧
    (runRouter urlSessionInput).detected_urls ≠ [] ∧
    optTruthy urlSessionInput.session_id = true ∧
    (runFan urlSessionInput ragIntentOracles =
        [.url_processor, .vector_retriever, .temp_retriever] ∧
      superstepOf (runPipeline urlSessionInput ragIntentOracles)
          .url_processor = some 2 ∧
      superstepOf (runPipeline urlSessionInput ragIntentOracles)
          .temp_retriever = some 2 ∧
      completesBefore (runPipeline urlSessionInput ragIntentOracles)
        .url_processor .retrieval_evaluator ∧
      completesBefore (runPipeline urlSessionInput ragIntentOracles)
        .temp_retriever .retrieval_evaluator) :=
  ⟨by decide, by decide, by decide,
   url_intake_same_superstep_as_temp_retriever urlSessionInput
     ragIntentOracles (by decide) (by decide) (by decide)⟩

/-- C3: the agent's URL extraction (router and url_intent_detector)
applied to the question Visit www.example.com yields the single
match www.example.com without prepending the https scheme — while
extract_urls_from_text of the ingestion module, the extraction routine
pinned by the repository's own test suite, does return
https://www.example.com on the same input. -/
theorem www_scheme_not_added_by_agent_extraction :
    extractUrlsAgent "Visit www.example.com" = ["www.example.com"] ∧
    "https://www.example.com" ∉ extractUrlsAgent "Visit www.example.com" ∧
    extract_urls_from_text "Visit www.example.com" =
      ["https://www.example.com"] := by
  refine ⟨by decide, by decide, by decide⟩

/-- C8: on the RAG branch, an empty fused context is graded insufficient
without an LLM call; and whenever the final grade is insufficient the
run terminates with the fixed fallback answer and the generator node
never executes. -/
theorem insufficient_grade_terminates_with_fallback
    (inp : RequestInput) (o : Oracles)
    (hd : (runIntent inp o).url_summarize_direct = false) :
    ((runFusion inp o).context = [] →
      runGrade inp o = { grade := "insufficient", llmCalled := false }) ∧
    ((runGrade inp o).grade = "insufficient" →
      (runPipeline inp o).answer = insufficientAnswer ∧
      AgentNode.generator ∉ executedNodes (runPipeline inp o)) := by
  constructor
  · intro h
    simp [runGrade, graderNode, h]
  · intro hg
    have hfin : runFinalNode inp o = .insufficient_handler := by
      unfold runFinalNode routeGrader
      rw [hg]
      simp
    refine ⟨?_, generator_not_executed inp o hd hfin⟩
    rw [runPipeline_answer inp o hd, hfin]
    simp

/-- C8 witness: the theorem applied to the concrete all-services-down
run, in which the fused context is indeed empty and the grade is
insufficient. -/
theorem insufficient_grade_terminates_with_fallback_witness :
    (runIntent plainInput sampleOraclesDown).url_summarize_direct = false ∧
    (((runFusion plainInput sampleOraclesDown).context = [] →
        runGrade plainInput sampleOraclesDown =
          { grade := "insufficient", llmCalled := false }) ∧
      ((runGrade plainInput sampleOraclesDown).grade = "insufficient" →
        (runPipeline plainInput sampleOraclesDown).answer =
          insufficientAnswer ∧
        AgentNode.generator ∉
          executedNodes (runPipeline plainInput sampleOraclesDown))) :=
  ⟨by decide,
   insufficient_grade_terminates_with_fallback plainInput sampleOraclesDown
     (by decide)⟩
